import Mathlib

/-
Verification development for the Prism-API embedding service
(src/embedding-service/app.py).

The service is a Flask app with a process-wide lazily loaded
SentenceTransformer model and three POST handlers (embed, embed/batch,
similarity) plus a health check.  We shallow-embed:

* JSON values (`Json`) with Python truthiness (`Json.truthy`) and
  dict-style field access with defaults (`Json.getD`), mirroring
  `data.get(key, default)`;
* the external EmbeddingModel capability as an opaque per-item encoder
  `Json → List ℝ`; its batch form chunks by `batch_size` and is proved
  order-preserving (the model-layer contract stated in the spec);
* each request handler as a pure function from the parsed body
  (`Option Json`, `none` when no parseable JSON body was obtained) to a
  response together with the list of encode invocations it performed
  (the invocation trace makes "one model call, not two" provable);
* the model registry (`load_model`) twice: sequentially as explicit
  state passing over the global `model` reference, and as a small-step
  interleaving of two threads, each running the unguarded
  check-then-construct-then-assign sequence of the source.

Vectors are lists of real numbers (the idealisation of numpy float
arrays); `dot` is `np.dot`, `norm2` is `np.linalg.norm`, `cosineSim` is
the unguarded division the source performs.
-/

namespace PrismAPI

/-- Configured model identifier; the source reads `MODEL_NAME` from the
environment with this default. -/
def MODEL_NAME : String := "all-MiniLM-L6-v2"

/-- JSON values as Python receives them from `request.get_json()`.
Numbers are modelled as integers (no claim involves a fractional JSON
number). -/
inductive Json where
  | null
  | bool (b : Bool)
  | num (n : Int)
  | str (s : String)
  | arr (xs : List Json)
  | obj (kvs : List (String × Json))
deriving Repr

/-- Python truthiness of a JSON value: `None`, `False`, `0`, `""`, `[]`
and `\x7b\x7d` are falsy, everything else truthy. -/
def Json.truthy : Json → Bool
  | .null => false
  | .bool b => b
  | .num n => n != 0
  | .str s => s != ""
  | .arr xs => !xs.isEmpty
  | .obj kvs => !kvs.isEmpty

/-- Dict field lookup; `none` on a missing key or a non-object value. -/
def Json.get? : Json → String → Option Json
  | .obj kvs, k => (kvs.find? (fun p => p.1 == k)).map (fun p => p.2)
  | _, _ => none

/-- Python `data.get(key, default)` on a dict. -/
def Json.getD (j : Json) (k : String) (d : Json) : Json :=
  (j.get? k).getD d

/-- Is the value a JSON array (Python `isinstance(texts, list)`). -/
def Json.isArr : Json → Bool
  | .arr _ => true
  | _ => false

/-- The elements of a JSON array value (only used behind an `isArr`
test, matching the dynamic typing of the source). -/
def Json.asArr : Json → List Json
  | .arr xs => xs
  | _ => []

/-- How the model layer consumes a `batch_size` value: a JSON integer is
used as the chunk size (negative values clamp to 0, i.e. no grouping
effect); the handler itself never inspects or bounds it. -/
def Json.asNat : Json → Nat
  | .num n => n.toNat
  | _ => 0

/-- Truthiness of `request.get_json()`s result as the source tests it
with `if not data:` (`none`, i.e. no parseable body, is falsy like
`None`). -/
def bodyTruthy : Option Json → Bool
  | none => false
  | some j => j.truthy

/-- One invocation of the embedding model's `encode`: either a single
text or a batch of texts with the `batch_size` argument that was passed
(`none` when the call site passes no `batch_size`). -/
inductive EncArg where
  | single (t : Json)
  | batch (ts : List Json) (bs : Option Json)
deriving Repr

/-- Responses the handlers produce, mirroring the `jsonify` payloads of
the source (success payload fields) and the error returns. -/
inductive Resp where
  | okEmbed (embedding : List ℝ) (dimension : Nat) (model : String)
  | okBatch (embeddings : List (List ℝ)) (count : Nat) (dimension : Nat) (model : String)
  | okSim (score : ℝ) (text1 : Json) (text2 : Json) (model : String)
  | badRequest (msg : String)
  | internalError (msg : String)

/-- HTTP status code attached to each response shape. -/
def Resp.status : Resp → Nat
  | .okEmbed _ _ _ => 200
  | .okBatch _ _ _ _ => 200
  | .okSim _ _ _ _ => 200
  | .badRequest _ => 400
  | .internalError _ => 500

/-- Message of the exception raised when `.get` is called on a truthy
non-dict body; it is caught by the handler boundary and reported as a
500 internal error. -/
def attrError : String := "AttributeError: object has no attribute get"

/-- Split a list into chunks of size `bs` (a chunk size of 0 or 1 gives
singleton chunks). Models the internal batching the model layer performs
for throughput. -/
def chunk (bs : Nat) (xs : List α) : List (List α) :=
  match xs with
  | [] => []
  | x :: rest => (x :: rest.take (bs - 1)) :: chunk bs (rest.drop (bs - 1))
termination_by xs.length
decreasing_by simp [List.length_drop]; omega

/-- Modelled from the spec: the external EmbeddingModel capability
(`sentence_transformers.SentenceTransformer`, not part of this
repository). It maps each input to a fixed vector; batch encoding
internally chunks by `batch_size` without affecting output order. -/
structure EmbeddingModel where
  enc : Json → List ℝ

/-- Modelled from the spec: `m.encode(texts, batch_size=bs)` — encode a
list of texts, internally chunking by `bs`; one vector per input text in
input order. -/
def EmbeddingModel.encodeBatch (m : EmbeddingModel) (ts : List Json) (bs : Nat) :
    List (List ℝ) :=
  ((chunk bs ts).map (List.map m.enc)).flatten

/-- Handler for POST /embed, returning the response and the trace of
encode invocations performed. -/
def embed (m : EmbeddingModel) (body : Option Json) : Resp × List EncArg :=
  if !(bodyTruthy body) then
    (Resp.badRequest "Request body must be JSON", [])
  else
    match body with
    | some (Json.obj kvs) =>
        let text := (Json.obj kvs).getD "text" (Json.str "")
        if !text.truthy then
          (Resp.badRequest "Field 'text' is required", [])
        else
          let embedding := m.enc text
          (Resp.okEmbed embedding embedding.length MODEL_NAME, [EncArg.single text])
    | _ => (Resp.internalError attrError, [])

/-- Handler for POST /embed/batch, returning the response and the trace
of encode invocations performed. -/
def embed_batch (m : EmbeddingModel) (body : Option Json) : Resp × List EncArg :=
  if !(bodyTruthy body) then
    (Resp.badRequest "Request body must be JSON", [])
  else
    match body with
    | some (Json.obj kvs) =>
        let texts := (Json.obj kvs).getD "texts" (Json.arr [])
        if !texts.truthy || !texts.isArr then
          (Resp.badRequest "Field 'texts' must be a non-empty array", [])
        else
          let batch_size := (Json.obj kvs).getD "batch_size" (Json.num 32)
          let ts := texts.asArr
          let embeddings := m.encodeBatch ts batch_size.asNat
          (Resp.okBatch embeddings embeddings.length
            (match embeddings with | [] => 0 | e :: _ => e.length) MODEL_NAME,
           [EncArg.batch ts (some batch_size)])
    | _ => (Resp.internalError attrError, [])

/-- Dot product of two vectors, `np.dot` on 1-d float arrays. -/
def dot (v w : List ℝ) : ℝ :=
  (List.zipWith (fun a b => a * b) v w).sum

/-- Euclidean norm, `np.linalg.norm`. -/
noncomputable def norm2 (v : List ℝ) : ℝ :=
  Real.sqrt (dot v v)

/-- The cosine similarity exactly as the source computes it: an
unguarded division by the product of the norms. -/
noncomputable def cosineSim (v w : List ℝ) : ℝ :=
  dot v w / (norm2 v * norm2 w)

/-- Handler for POST /similarity, returning the response and the trace
of encode invocations performed.  The source makes a single
`m.encode([text1, text2])` call (no `batch_size` argument; the library
default of 32 governs chunking). -/
noncomputable def similarity (m : EmbeddingModel) (body : Option Json) :
    Resp × List EncArg :=
  if !(bodyTruthy body) then
    (Resp.badRequest "Request body must be JSON", [])
  else
    match body with
    | some (Json.obj kvs) =>
        let text1 := (Json.obj kvs).getD "text1" (Json.str "")
        let text2 := (Json.obj kvs).getD "text2" (Json.str "")
        if !text1.truthy || !text2.truthy then
          (Resp.badRequest "Fields 'text1' and 'text2' are required", [])
        else
          let embeddings := m.encodeBatch [text1, text2] 32
          let score := cosineSim (embeddings.getD 0 []) (embeddings.getD 1 [])
          (Resp.okSim score text1 text2 MODEL_NAME, [EncArg.batch [text1, text2] none])
    | _ => (Resp.internalError attrError, [])

/-- Sequential state-passing embedding of `load_model`: the global
`model` reference before the call, together with the outcome the
`SentenceTransformer` constructor would have (handles are abstract
naturals).  If the reference is set, it is returned untouched; otherwise
the constructor runs, and only on success is the reference assigned
(Python evaluates the right-hand side before assigning, so a raising
constructor leaves the global unchanged). -/
def load_model (ctor : Except String Nat) (model : Option Nat) :
    Option Nat × Except String Nat :=
  match model with
  | some h => (some h, Except.ok h)
  | none =>
      match ctor with
      | Except.ok h => (some h, Except.ok h)
      | Except.error e => (none, Except.error e)

/-- Program counter of a thread running `load_model`: about to test
`model is None`, past the test and about to construct-and-assign, or
finished. -/
inductive Pc where
  | check
  | construct
  | done
deriving DecidableEq, Repr

/-- A thread running `load_model`: its position and the handle it
returned (once done). -/
structure ThreadSt where
  pc : Pc
  ret : Option Nat
deriving DecidableEq, Repr

/-- Global state of two request threads concurrently calling
`load_model` on a cold process: the shared `model` global, the number of
`SentenceTransformer` constructions performed, and both threads. -/
structure Sys where
  model : Option Nat
  loads : Nat
  th1 : ThreadSt
  th2 : ThreadSt
deriving DecidableEq, Repr

/-- One atomic step of a thread executing the body of `load_model`.
`h` is the fresh handle this thread's construction would produce.  The
`model is None` test and the construct-and-assign are separate atomic
actions, as in the source (there is no lock around them). -/
def stepT (h : Nat) (model : Option Nat) (loads : Nat) (t : ThreadSt) :
    Option Nat × Nat × ThreadSt :=
  match t.pc with
  | Pc.done => (model, loads, t)
  | Pc.check =>
      match model with
      | some hm => (model, loads, ⟨Pc.done, some hm⟩)
      | none => (model, loads, ⟨Pc.construct, none⟩)
  | Pc.construct => (some h, loads + 1, ⟨Pc.done, some h⟩)

/-- Advance one of the two threads (`true` for thread 1).  `h1`, `h2`
are the distinct handles the two constructions would produce. -/
def step (h1 h2 : Nat) (s : Sys) (who : Bool) : Sys :=
  if who then
    let r := stepT h1 s.model s.loads s.th1
    ⟨r.1, r.2.1, r.2.2, s.th2⟩
  else
    let r := stepT h2 s.model s.loads s.th2
    ⟨r.1, r.2.1, s.th1, r.2.2⟩

/-- Run a schedule (a list of thread choices) from a state. -/
def run (h1 h2 : Nat) (s : Sys) : List Bool → Sys
  | [] => s
  | w :: ws => run h1 h2 (step h1 h2 s w) ws

/-- A cold process: no model loaded, no constructions yet, both threads
about to run `load_model`. -/
def cold : Sys := ⟨none, 0, ⟨Pc.check, none⟩, ⟨Pc.check, none⟩⟩

/-- A concrete model mapping every input to the vector [1]; used to
instantiate universally quantified statements at a concrete input. -/
def constModel : EmbeddingModel := ⟨fun _ => [1]⟩

/-- A concrete model distinguishing the input "a" from every other
input; used to observe input order in batch outputs. -/
def encA : EmbeddingModel :=
  ⟨fun t => match t with | Json.str "a" => [1] | _ => [2, 3]⟩

/-- Chunking never loses, duplicates or reorders elements: flattening
the chunks gives back the input list, for every chunk size. -/
theorem chunk_flatten (bs : Nat) (xs : List α) : (chunk bs xs).flatten = xs := by
  cases xs with
  | nil => simp [chunk]
  | cons x rest =>
      rw [chunk]
      have ih := chunk_flatten bs (rest.drop (bs - 1))
      simp [ih]
termination_by xs.length
decreasing_by simp [List.length_drop]; omega

/-- Batch encoding is the per-item encoder mapped over the inputs, in
input order, for every chunk size: chunking is a performance hint, not a
correctness boundary. -/
theorem encodeBatch_eq_map (m : EmbeddingModel) (ts : List Json) (bs : Nat) :
    m.encodeBatch ts bs = ts.map m.enc := by
  rw [EmbeddingModel.encodeBatch, ← List.map_flatten, chunk_flatten]

theorem dot_nil_left (w : List ℝ) : dot [] w = 0 := rfl

theorem dot_nil_right (v : List ℝ) : dot v [] = 0 := by
  cases v <;> rfl

theorem dot_cons (x y : ℝ) (v w : List ℝ) :
    dot (x :: v) (y :: w) = x * y + dot v w := by
  simp [dot]

/-- The dot product is symmetric. -/
theorem dot_comm (v w : List ℝ) : dot v w = dot w v := by
  induction v generalizing w with
  | nil => rw [dot_nil_left, dot_nil_right]
  | cons x v ih =>
      cases w with
      | nil => rw [dot_nil_left, dot_nil_right]
      | cons y w => rw [dot_cons, dot_cons, ih, mul_comm]

/-- The dot product as a finite sum over the common index range. -/
theorem dot_eq_sum (v w : List ℝ) :
    dot v w = ∑ i ∈ Finset.range (min v.length w.length),
      v.getD i 0 * w.getD i 0 := by
  induction v generalizing w with
  | nil => simp [dot]
  | cons x v ih =>
      cases w with
      | nil => simp [dot]
      | cons y w =>
          rw [dot_cons, ih, List.length_cons, List.length_cons,
            Nat.succ_min_succ, Finset.sum_range_succ']
          simp [add_comm]

theorem dot_self_eq_sum (v : List ℝ) :
    dot v v = ∑ i ∈ Finset.range v.length, v.getD i 0 ^ 2 := by
  rw [dot_eq_sum, Nat.min_self]
  exact Finset.sum_congr rfl fun i _ => (sq (v.getD i 0)).symm

theorem dot_self_nonneg (v : List ℝ) : 0 ≤ dot v v := by
  rw [dot_self_eq_sum]
  exact Finset.sum_nonneg fun i _ => sq_nonneg _

theorem norm2_nonneg (v : List ℝ) : 0 ≤ norm2 v :=
  Real.sqrt_nonneg _

/-- Cauchy-Schwarz for the list dot product: the absolute dot product is
bounded by the product of the Euclidean norms. -/
theorem abs_dot_le (v w : List ℝ) : |dot v w| ≤ norm2 v * norm2 w := by
  have h1 : dot v w ≤
      Real.sqrt (∑ i ∈ Finset.range (min v.length w.length), v.getD i 0 ^ 2) *
      Real.sqrt (∑ i ∈ Finset.range (min v.length w.length), w.getD i 0 ^ 2) := by
    rw [dot_eq_sum]
    exact Real.sum_mul_le_sqrt_mul_sqrt _ _ _
  have h2 : -(dot v w) ≤
      Real.sqrt (∑ i ∈ Finset.range (min v.length w.length), v.getD i 0 ^ 2) *
      Real.sqrt (∑ i ∈ Finset.range (min v.length w.length), w.getD i 0 ^ 2) := by
    have h := Real.sum_mul_le_sqrt_mul_sqrt (Finset.range (min v.length w.length))
      (fun i => -(v.getD i 0)) (fun i => w.getD i 0)
    rw [dot_eq_sum]
    simpa [neg_mul, Finset.sum_neg_distrib] using h
  have ha := abs_le.mpr ⟨by linarith, h1⟩
  have hv : Real.sqrt (∑ i ∈ Finset.range (min v.length w.length), v.getD i 0 ^ 2)
      ≤ norm2 v := by
    rw [norm2, dot_self_eq_sum]
    apply Real.sqrt_le_sqrt
    apply Finset.sum_le_sum_of_subset_of_nonneg
    · exact Finset.range_subset.mpr (Nat.min_le_left _ _)
    · intro i _ _
      exact sq_nonneg _
  have hw : Real.sqrt (∑ i ∈ Finset.range (min v.length w.length), w.getD i 0 ^ 2)
      ≤ norm2 w := by
    rw [norm2, dot_self_eq_sum]
    apply Real.sqrt_le_sqrt
    apply Finset.sum_le_sum_of_subset_of_nonneg
    · exact Finset.range_subset.mpr (Nat.min_le_right _ _)
    · intro i _ _
      exact sq_nonneg _
  exact ha.trans (mul_le_mul hv hw (Real.sqrt_nonneg _) (norm2_nonneg v))

/-- Cosine similarity is symmetric in its two arguments. -/
theorem cosineSim_comm (v w : List ℝ) : cosineSim v w = cosineSim w v := by
  rw [cosineSim, cosineSim, dot_comm, mul_comm]

/-- With both norms nonzero the unguarded cosine division is safe and
its value lies in the closed interval from -1 to 1. -/
theorem abs_cosineSim_le_one (v w : List ℝ) (hv : norm2 v ≠ 0) (hw : norm2 w ≠ 0) :
    |cosineSim v w| ≤ 1 := by
  have hvpos : 0 < norm2 v := lt_of_le_of_ne (norm2_nonneg v) (Ne.symm hv)
  have hwpos : 0 < norm2 w := lt_of_le_of_ne (norm2_nonneg w) (Ne.symm hw)
  have hdpos : 0 < norm2 v * norm2 w := mul_pos hvpos hwpos
  rw [cosineSim, abs_div, abs_of_pos hdpos, div_le_one hdpos]
  exact abs_dot_le v w

/-- A truthy object body is a non-empty dict. -/
theorem obj_truthy_ne (kvs : List (String × Json))
    (hk : (Json.obj kvs).truthy = true) : kvs ≠ [] := by
  intro h
  subst h
  simp [Json.truthy] at hk

/-- Success-path characterisation of the batch handler: when the body is
a truthy object whose fetched `texts` value is a non-empty array, the
response carries one vector per text in input order, the count, the
dimension of the first vector and the model name, and exactly one encode
invocation is made, carrying the fetched (or defaulted) batch size. -/
theorem embed_batch_ok (m : EmbeddingModel) (kvs : List (String × Json))
    (t0 : Json) (ts' : List Json)
    (hk : (Json.obj kvs).truthy = true)
    (hts : (Json.obj kvs).getD "texts" (Json.arr []) = Json.arr (t0 :: ts')) :
    embed_batch m (some (Json.obj kvs)) =
      (Resp.okBatch ((t0 :: ts').map m.enc) (t0 :: ts').length
        (m.enc t0).length MODEL_NAME,
       [EncArg.batch (t0 :: ts')
         (some ((Json.obj kvs).getD "batch_size" (Json.num 32)))]) := by
  simp [embed_batch, bodyTruthy, hk, hts, Json.truthy, Json.isArr, Json.asArr,
    encodeBatch_eq_map, obj_truthy_ne kvs hk]

/-- Success-path characterisation of the similarity handler: when the
body is a truthy object whose fetched `text1` and `text2` values are
both truthy, the handler makes exactly one batch encode invocation on
the two texts and reports their cosine similarity. -/
theorem similarity_spec (m : EmbeddingModel) (kvs : List (String × Json))
    (t1 t2 : Json)
    (hk : (Json.obj kvs).truthy = true)
    (h1 : (Json.obj kvs).getD "text1" (Json.str "") = t1)
    (h2 : (Json.obj kvs).getD "text2" (Json.str "") = t2)
    (ht1 : t1.truthy = true) (ht2 : t2.truthy = true) :
    similarity m (some (Json.obj kvs)) =
      (Resp.okSim (cosineSim (m.enc t1) (m.enc t2)) t1 t2 MODEL_NAME,
       [EncArg.batch [t1, t2] none]) := by
  simp [similarity, bodyTruthy, hk, h1, h2, ht1, ht2, encodeBatch_eq_map]

/-- C2 (corrected): the claimed body-level message differs from the one
the code produces, and a parseable-but-falsy body (here the empty
object) takes the body-level branch although the claim, which keys the
first check on parseability, would send it to the field-level check: on
the empty object the code returns the body-level 400, whose message is
"Request body must be JSON", not "Request body must be structured data",
and not the field-level message. -/
theorem c2_counterexample :
    embed constModel (some (Json.obj [])) =
      (Resp.badRequest "Request body must be JSON", []) ∧
    "Request body must be JSON" ≠ "Request body must be structured data" ∧
    "Request body must be JSON" ≠ "Field 'text' is required" :=
  ⟨rfl, by decide, by decide⟩

/-- C2 (amended): validation of the single-embed operation is fail-fast
in a fixed order: if the body is missing, unparseable, or parses to a
falsy value, it returns 400 with message "Request body must be JSON";
otherwise, for an object body, if the fetched `text` value is falsy
(absent or empty) it returns 400 with message "Field 'text' is
required"; otherwise validation passes and the text is encoded. -/
theorem c2_embed_validation (m : EmbeddingModel) (body : Option Json) :
    (bodyTruthy body = false →
      embed m body = (Resp.badRequest "Request body must be JSON", [])) ∧
    (∀ kvs, body = some (Json.obj kvs) →
      (Json.obj kvs).truthy = true →
      ((Json.obj kvs).getD "text" (Json.str "")).truthy = false →
      embed m body = (Resp.badRequest "Field 'text' is required", [])) ∧
    (∀ kvs, body = some (Json.obj kvs) →
      (Json.obj kvs).truthy = true →
      ((Json.obj kvs).getD "text" (Json.str "")).truthy = true →
      embed m body =
        (Resp.okEmbed (m.enc ((Json.obj kvs).getD "text" (Json.str "")))
          (m.enc ((Json.obj kvs).getD "text" (Json.str ""))).length MODEL_NAME,
         [EncArg.single ((Json.obj kvs).getD "text" (Json.str ""))])) := by
  refine ⟨fun hb => ?_, fun kvs hbody hk ht => ?_, fun kvs hbody hk ht => ?_⟩
  · simp [embed, hb]
  · subst hbody
    simp [embed, bodyTruthy, hk, ht]
  · subst hbody
    simp [embed, bodyTruthy, hk, ht]

/-- C2 witness: a well-formed request with text "hi" is encoded. -/
theorem c2_embed_validation_witness :
    embed constModel (some (Json.obj [("text", Json.str "hi")])) =
      (Resp.okEmbed [1] 1 MODEL_NAME, [EncArg.single (Json.str "hi")]) :=
  (c2_embed_validation constModel
    (some (Json.obj [("text", Json.str "hi")]))).2.2
    [("text", Json.str "hi")] rfl rfl rfl

/-- C7 (corrected): a parseable body can still take the body-level
branch: on the empty object, whose `texts` field is absent, the code
returns the body-level 400 "Request body must be JSON", not the
texts-level message the claim requires for an absent `texts` field. -/
theorem c7_counterexample :
    embed_batch constModel (some (Json.obj [])) =
      (Resp.badRequest "Request body must be JSON", []) ∧
    "Request body must be JSON" ≠ "Field 'texts' must be a non-empty array" :=
  ⟨rfl, by decide⟩

/-- C7 (amended): for every embed_batch call whose body parses to a
truthy object, a 400 with message "Field 'texts' must be a non-empty
array" is returned iff the fetched `texts` value is not a non-empty
array (absent, empty, falsy, or not a sequence); otherwise batch
validation passes and encoding proceeds. -/
theorem c7_batch_validation (m : EmbeddingModel) (kvs : List (String × Json))
    (hk : (Json.obj kvs).truthy = true) :
    (embed_batch m (some (Json.obj kvs)) =
        (Resp.badRequest "Field 'texts' must be a non-empty array", [])
      ↔ ∀ t0 ts', (Json.obj kvs).getD "texts" (Json.arr []) ≠ Json.arr (t0 :: ts')) ∧
    (∀ t0 ts', (Json.obj kvs).getD "texts" (Json.arr []) = Json.arr (t0 :: ts') →
      embed_batch m (some (Json.obj kvs)) =
        (Resp.okBatch ((t0 :: ts').map m.enc) (t0 :: ts').length
          (m.enc t0).length MODEL_NAME,
         [EncArg.batch (t0 :: ts')
           (some ((Json.obj kvs).getD "batch_size" (Json.num 32)))])) := by
  constructor
  · constructor
    · intro hbad t0 ts' hts
      rw [embed_batch_ok m kvs t0 ts' hk hts] at hbad
      exact Resp.noConfusion (congrArg Prod.fst hbad)
    · intro hnot
      match hj : (Json.obj kvs).getD "texts" (Json.arr []) with
      | Json.null | Json.bool _ | Json.num _ | Json.str _ | Json.obj _ =>
          simp [embed_batch, bodyTruthy, hk, hj, Json.truthy, Json.isArr,
            obj_truthy_ne kvs hk]
      | Json.arr [] =>
          simp [embed_batch, bodyTruthy, hk, hj, Json.truthy, Json.isArr,
            obj_truthy_ne kvs hk]
      | Json.arr (t0 :: ts') =>
          exact absurd hj (hnot t0 ts')
  · intro t0 ts' hts
    exact embed_batch_ok m kvs t0 ts' hk hts

/-- C7 witness: a present but scalar `texts` field is rejected with the
texts-level message. -/
theorem c7_batch_validation_witness :
    embed_batch constModel (some (Json.obj [("texts", Json.num 5)])) =
      (Resp.badRequest "Field 'texts' must be a non-empty array", []) :=
  ((c7_batch_validation constModel [("texts", Json.num 5)] rfl).1).mpr
    (fun _ _ h => Json.noConfusion h)

/-- C10 (confirmed): at each of the three POST endpoints, a body that
parses to a falsy value (such as the empty object, the empty array,
false, 0 or null) is rejected with the body-level 400 "Request body must
be JSON" rather than a field-level error, because the guard tests
truthiness of the parsed value, not parse success. -/
theorem c10_falsy_body (m : EmbeddingModel) (j : Json) (h : j.truthy = false) :
    embed m (some j) = (Resp.badRequest "Request body must be JSON", []) ∧
    embed_batch m (some j) = (Resp.badRequest "Request body must be JSON", []) ∧
    similarity m (some j) = (Resp.badRequest "Request body must be JSON", []) ∧
    (Resp.badRequest "Request body must be JSON").status = 400 := by
  refine ⟨?_, ?_, ?_, rfl⟩ <;> simp [embed, embed_batch, similarity, bodyTruthy, h]

/-- C10 witness: the falsy body 0 is rejected at all three endpoints
with the body-level message. -/
theorem c10_falsy_body_witness :
    embed constModel (some (Json.num 0)) =
      (Resp.badRequest "Request body must be JSON", []) ∧
    embed_batch constModel (some (Json.num 0)) =
      (Resp.badRequest "Request body must be JSON", []) ∧
    similarity constModel (some (Json.num 0)) =
      (Resp.badRequest "Request body must be JSON", []) ∧
    (Resp.badRequest "Request body must be JSON").status = 400 :=
  c10_falsy_body constModel (Json.num 0) rfl

theorem dot_self_zero (v : List ℝ) (h : ∀ x ∈ v, x = 0) : dot v v = 0 := by
  induction v with
  | nil => rfl
  | cons x v ih =>
      rw [dot_cons, h x (List.mem_cons_self x v), ih fun y hy => h y (List.mem_cons_of_mem x hy)]
      ring

/-- An all-zero vector has norm zero (the division-by-zero condition of
the unguarded cosine). -/
theorem norm2_eq_zero_of_zero (v : List ℝ) (h : ∀ x ∈ v, x = 0) : norm2 v = 0 := by
  rw [norm2, dot_self_zero v h, Real.sqrt_zero]

/-- Indexing a mapped list below its length applies the function to the
element at that index. -/
theorem getD_map_of_lt (f : α → β) (l : List α) (d : α) (e : β) :
    ∀ i, i < l.length → (l.map f).getD i e = f (l.getD i d) := by
  induction l with
  | nil =>
      intro i hi
      simp at hi
  | cons x l ih =>
      intro i hi
      cases i with
      | zero => simp
      | succ n =>
          simp only [List.map_cons, List.getD_cons_succ]
          exact ih n (by simpa using hi)

/-- C3 (confirmed): for every valid batch request with a non-empty texts
array, embed_batch returns one embedding per text in exactly the input
order (the vector at index i is the encoding of the text at index i), a
count equal to the number of returned vectors and to the number of
texts, the dimension of the first vector, and the active model name. -/
theorem c3_batch_order (m : EmbeddingModel) (kvs : List (String × Json))
    (t0 : Json) (ts' : List Json)
    (hk : (Json.obj kvs).truthy = true)
    (hts : (Json.obj kvs).getD "texts" (Json.arr []) = Json.arr (t0 :: ts')) :
    embed_batch m (some (Json.obj kvs)) =
      (Resp.okBatch ((t0 :: ts').map m.enc) (t0 :: ts').length
        (m.enc t0).length MODEL_NAME,
       [EncArg.batch (t0 :: ts')
         (some ((Json.obj kvs).getD "batch_size" (Json.num 32)))]) ∧
    ((t0 :: ts').map m.enc).length = (t0 :: ts').length ∧
    (∀ i, i < (t0 :: ts').length →
      ((t0 :: ts').map m.enc).getD i [] = m.enc ((t0 :: ts').getD i Json.null)) := by
  refine ⟨embed_batch_ok m kvs t0 ts' hk hts, List.length_map _ _, ?_⟩
  exact getD_map_of_lt m.enc (t0 :: ts') Json.null []

/-- C3 witness: two texts "a" and "b" under a model that distinguishes
"a"; the response holds the two vectors in input order with count 2,
the first vector dimension, and the model name. -/
theorem c3_batch_order_witness :
    embed_batch encA
        (some (Json.obj [("texts", Json.arr [Json.str "a", Json.str "b"])])) =
      (Resp.okBatch [[1], [2, 3]] 2 1 MODEL_NAME,
       [EncArg.batch [Json.str "a", Json.str "b"] (some (Json.num 32))]) :=
  (c3_batch_order encA [("texts", Json.arr [Json.str "a", Json.str "b"])]
    (Json.str "a") [Json.str "b"] rfl rfl).1

/-- C4 (confirmed): for every valid similarity request the handler makes
exactly one batch encode invocation, on the two-element list of both
texts, and reports the cosine similarity of the two resulting vectors as
a real number. -/
theorem c4_similarity_single_call (m : EmbeddingModel)
    (kvs : List (String × Json)) (t1 t2 : Json)
    (hk : (Json.obj kvs).truthy = true)
    (h1 : (Json.obj kvs).getD "text1" (Json.str "") = t1)
    (h2 : (Json.obj kvs).getD "text2" (Json.str "") = t2)
    (ht1 : t1.truthy = true) (ht2 : t2.truthy = true) :
    similarity m (some (Json.obj kvs)) =
      (Resp.okSim (cosineSim (m.enc t1) (m.enc t2)) t1 t2 MODEL_NAME,
       [EncArg.batch [t1, t2] none]) ∧
    (similarity m (some (Json.obj kvs))).2.length = 1 := by
  have h := similarity_spec m kvs t1 t2 hk h1 h2 ht1 ht2
  rw [h]
  exact ⟨rfl, rfl⟩

/-- C4 witness: a concrete valid request makes one batch call on both
texts and reports their cosine similarity. -/
theorem c4_similarity_single_call_witness :
    similarity constModel
        (some (Json.obj [("text1", Json.str "x"), ("text2", Json.str "y")])) =
      (Resp.okSim (cosineSim [1] [1]) (Json.str "x") (Json.str "y") MODEL_NAME,
       [EncArg.batch [Json.str "x", Json.str "y"] none]) :=
  (c4_similarity_single_call constModel
    [("text1", Json.str "x"), ("text2", Json.str "y")]
    (Json.str "x") (Json.str "y") rfl rfl rfl rfl rfl).1

/-- C5 (confirmed): similarity is symmetric: for any fixed embedding
function and any two non-empty texts, the score reported for (a, b)
equals the score reported for (b, a) (exactly, in the real-number
idealisation of the floating-point computation). -/
theorem c5_similarity_symmetric (m : EmbeddingModel) (s1 s2 : String)
    (h1 : s1 ≠ "") (h2 : s2 ≠ "") :
    ∃ r : ℝ,
      similarity m (some (Json.obj [("text1", Json.str s1), ("text2", Json.str s2)])) =
        (Resp.okSim r (Json.str s1) (Json.str s2) MODEL_NAME,
         [EncArg.batch [Json.str s1, Json.str s2] none]) ∧
      similarity m (some (Json.obj [("text1", Json.str s2), ("text2", Json.str s1)])) =
        (Resp.okSim r (Json.str s2) (Json.str s1) MODEL_NAME,
         [EncArg.batch [Json.str s2, Json.str s1] none]) := by
  refine ⟨cosineSim (m.enc (Json.str s1)) (m.enc (Json.str s2)), ?_, ?_⟩
  · exact similarity_spec m _ _ _ rfl rfl rfl
      (by simp [Json.truthy, h1]) (by simp [Json.truthy, h2])
  · rw [cosineSim_comm]
    exact similarity_spec m _ _ _ rfl rfl rfl
      (by simp [Json.truthy, h2]) (by simp [Json.truthy, h1])

/-- C5 witness: the symmetric pair of requests for the texts "a" and "b"
under a concrete model report one and the same score. -/
theorem c5_similarity_symmetric_witness :
    ∃ r : ℝ,
      similarity constModel
          (some (Json.obj [("text1", Json.str "a"), ("text2", Json.str "b")])) =
        (Resp.okSim r (Json.str "a") (Json.str "b") MODEL_NAME,
         [EncArg.batch [Json.str "a", Json.str "b"] none]) ∧
      similarity constModel
          (some (Json.obj [("text1", Json.str "b"), ("text2", Json.str "a")])) =
        (Resp.okSim r (Json.str "b") (Json.str "a") MODEL_NAME,
         [EncArg.batch [Json.str "b", Json.str "a"] none]) :=
  c5_similarity_symmetric constModel "a" "b" (by decide) (by decide)

/-- The norm of the one-element vector [1] is 1. -/
theorem norm2_one : norm2 [(1 : ℝ)] = 1 := by
  have h : dot [(1 : ℝ)] [(1 : ℝ)] = 1 := by simp [dot]
  rw [norm2, h, Real.sqrt_one]

/-- C6 (confirmed): on a valid similarity request, if both encoded
vectors have nonzero norm then the denominator of the cosine computation
is nonzero (no division by zero) and the reported score lies in the
mathematical range from -1 to 1, unclamped; the division is unguarded,
so if either vector is exactly zero the denominator is zero. -/
theorem c6_similarity_division (m : EmbeddingModel)
    (kvs : List (String × Json)) (t1 t2 : Json)
    (hk : (Json.obj kvs).truthy = true)
    (h1 : (Json.obj kvs).getD "text1" (Json.str "") = t1)
    (h2 : (Json.obj kvs).getD "text2" (Json.str "") = t2)
    (ht1 : t1.truthy = true) (ht2 : t2.truthy = true) :
    (norm2 (m.enc t1) ≠ 0 → norm2 (m.enc t2) ≠ 0 →
      norm2 (m.enc t1) * norm2 (m.enc t2) ≠ 0 ∧
      (similarity m (some (Json.obj kvs))).1 =
        Resp.okSim (cosineSim (m.enc t1) (m.enc t2)) t1 t2 MODEL_NAME ∧
      cosineSim (m.enc t1) (m.enc t2) ∈ Set.Icc (-1 : ℝ) 1) ∧
    (((∀ x ∈ m.enc t1, x = 0) ∨ (∀ x ∈ m.enc t2, x = 0)) →
      norm2 (m.enc t1) * norm2 (m.enc t2) = 0) := by
  constructor
  · intro hv hw
    refine ⟨mul_ne_zero hv hw, ?_, ?_⟩
    · rw [similarity_spec m kvs t1 t2 hk h1 h2 ht1 ht2]
    · exact Set.mem_Icc.mpr (abs_le.mp (abs_cosineSim_le_one _ _ hv hw))
  · intro h
    cases h with
    | inl h => rw [norm2_eq_zero_of_zero _ h, zero_mul]
    | inr h => rw [norm2_eq_zero_of_zero _ h, mul_zero]

/-- C6 witness: under a model sending every text to [1] both norms are
1, the denominator is nonzero, and the reported score lies in the range
from -1 to 1. -/
theorem c6_similarity_division_witness :
    norm2 (constModel.enc (Json.str "p")) * norm2 (constModel.enc (Json.str "q")) ≠ 0 ∧
    (similarity constModel
        (some (Json.obj [("text1", Json.str "p"), ("text2", Json.str "q")]))).1 =
      Resp.okSim (cosineSim (constModel.enc (Json.str "p")) (constModel.enc (Json.str "q")))
        (Json.str "p") (Json.str "q") MODEL_NAME ∧
    cosineSim (constModel.enc (Json.str "p")) (constModel.enc (Json.str "q")) ∈
      Set.Icc (-1 : ℝ) 1 :=
  (c6_similarity_division constModel
    [("text1", Json.str "p"), ("text2", Json.str "q")]
    (Json.str "p") (Json.str "q") rfl rfl rfl rfl rfl).1
    (by rw [show constModel.enc (Json.str "p") = [(1 : ℝ)] from rfl, norm2_one]
        exact one_ne_zero)
    (by rw [show constModel.enc (Json.str "q") = [(1 : ℝ)] from rfl, norm2_one]
        exact one_ne_zero)

/-- C8 (confirmed): on a valid batch request, when the `batch_size`
field is absent the single encode invocation is passed batch_size 32,
and when it is present with any integer value n the invocation is passed
n unchanged — no upper bound is enforced by the handler. -/
theorem c8_batch_size_default (m : EmbeddingModel)
    (kvs : List (String × Json)) (t0 : Json) (ts' : List Json)
    (hk : (Json.obj kvs).truthy = true)
    (hts : (Json.obj kvs).getD "texts" (Json.arr []) = Json.arr (t0 :: ts')) :
    ((Json.obj kvs).get? "batch_size" = none →
      (embed_batch m (some (Json.obj kvs))).2 =
        [EncArg.batch (t0 :: ts') (some (Json.num 32))]) ∧
    (∀ n : Int, (Json.obj kvs).get? "batch_size" = some (Json.num n) →
      (embed_batch m (some (Json.obj kvs))).2 =
        [EncArg.batch (t0 :: ts') (some (Json.num n))]) := by
  have hok := embed_batch_ok m kvs t0 ts' hk hts
  constructor
  · intro habs
    rw [hok]
    simp [Json.getD, habs]
  · intro n hbs
    rw [hok]
    simp [Json.getD, hbs]

/-- C8 witness: a request without `batch_size` leads to an encode
invocation with batch_size 32. -/
theorem c8_batch_size_default_witness :
    (embed_batch constModel
        (some (Json.obj [("texts", Json.arr [Json.str "t"])]))).2 =
      [EncArg.batch [Json.str "t"] (some (Json.num 32))] :=
  (c8_batch_size_default constModel [("texts", Json.arr [Json.str "t"])]
    (Json.str "t") [] rfl rfl).1 rfl

/-- C9 (confirmed): if the model constructor fails, the process-wide
model reference is exactly what it was before the call (still unset), so
the failed load caches nothing; the returned failure carries the
underlying cause, and a subsequent call with a succeeding constructor
retries and completes the load. -/
theorem c9_failed_load_not_cached (e : String) :
    (∀ s : Option Nat, (load_model (Except.error e) s).1 = s) ∧
    load_model (Except.error e) none = (none, Except.error e) ∧
    (∀ h : Nat, load_model (Except.ok h) (load_model (Except.error e) none).1 =
      (some h, Except.ok h)) := by
  refine ⟨fun s => ?_, rfl, fun h => rfl⟩
  cases s <;> rfl

/-- C1 (code bug demonstrated): the source guards the load with a plain
`if model is None` on a global and no lock, while the app runs with a
threaded server; in the interleaving where both threads pass the None
test before either assigns, the constructor runs twice and the two
callers receive two distinct handles — contradicting the load-once
guarantee the spec (and the function docstring) state. -/
theorem c1_unguarded_load_race :
    (run 1 2 cold [true, false, true, false]).loads = 2 ∧
    (run 1 2 cold [true, false, true, false]).th1.ret = some 1 ∧
    (run 1 2 cold [true, false, true, false]).th2.ret = some 2 ∧
    ¬((run 1 2 cold [true, false, true, false]).th1.ret =
      (run 1 2 cold [true, false, true, false]).th2.ret) := by
  decide

end PrismAPI
